import Mathlib

/-
Verification of the IntervalEstimator specification against the
statistics-with-python repository.  The definitions below transcribe the
arithmetic performed in
src/course2/2.5_Confidence_Intervals_Differences_Population_Parameters.ipynb:
per-group standard errors for proportions and means, pooling of standard
errors, and two-sided confidence intervals.  Machine floating point is
embedded as real arithmetic; the tolerances stated by the specification are
carried into the theorem statements.
-/

/-- Standard error of a sample proportion with statistic `p` and count `n`.
Embeds the notebook cells `se_female = np.sqrt(pf * (1 - pf) / nf)` and
`se_male = np.sqrt(pm * (1 - pm) / nm)`. -/
noncomputable def standard_error_proportion (p : ℝ) (n : ℕ) : ℝ :=
  Real.sqrt (p * (1 - p) / n)

/-- Standard error of a sample mean with sample standard deviation `sd` and
count `n`.  Embeds the notebook cells `sem_female = std / np.sqrt(size)` and
`sem_male = std / np.sqrt(size)`. -/
noncomputable def standard_error_mean (sd : ℝ) (n : ℕ) : ℝ :=
  sd / Real.sqrt n

/-- Pooled standard error of two independent estimates.  Embeds the notebook
cells `se_diff = np.sqrt(se_female**2 + se_male**2)` and
`sem_diff = np.sqrt(sem_female**2 + sem_male**2)`. -/
noncomputable def pool_standard_errors (se_a se_b : ℝ) : ℝ :=
  Real.sqrt (se_a ^ 2 + se_b ^ 2)

/-- The interval multiplier appearing literally in the notebook cells
`lcb = di - 1.96 * se_diff` and `ucb = di + 1.96 * se_diff`: the constant
1.96. -/
def z_code : ℝ := 1.96

/-- Confidence interval construction of the notebook, as the pair of cells
`lcb = di - 1.96 * se` and `ucb = di + 1.96 * se`. -/
def confidence_interval (point_estimate standard_error : ℝ) : ℝ × ℝ :=
  (point_estimate - z_code * standard_error,
   point_estimate + z_code * standard_error)

/-- Notebook interval construction with the nominal coverage level made an
explicit argument.  The notebooks hard-code the 95 percent multiplier 1.96,
so the construction performed by the code is identical for every requested
coverage level and the argument is unused. -/
def confidence_interval_at (_coverage point_estimate standard_error : ℝ) :
    ℝ × ℝ :=
  confidence_interval point_estimate standard_error

/-- Nominal coverage of the intervals the notebooks construct: the notebook
narrative announces a 95 percent confidence interval in both scenarios. -/
def nominal_coverage : ℝ := 0.95

/-- End-to-end composition for the difference of two proportions, following
the notebook: per-group standard errors, pooling, point difference
`di = ct.loc["Male", "smoke_prop"] - ct.loc["Female", "smoke_prop"]`, and the
interval cells `lcb = di - 1.96 * se_diff`, `ucb = di + 1.96 * se_diff`. -/
noncomputable def difference_interval_prop (p_a : ℝ) (n_a : ℕ) (p_b : ℝ)
    (n_b : ℕ) : ℝ × ℝ :=
  confidence_interval (p_a - p_b)
    (pool_standard_errors (standard_error_proportion p_a n_a)
      (standard_error_proportion p_b n_b))

/-- The single error kind named by the specification. -/
inductive EstimatorError where
  | InvalidInput

/-- Lift of the notebook proportion standard error to the fallible signature
of the specification.  The notebook cell computes unconditionally; the source
contains no validation and no raise path, so the lift always succeeds. -/
noncomputable def standard_error_proportion_run (p : ℝ) (n : ℕ) :
    Except EstimatorError ℝ :=
  Except.ok (standard_error_proportion p n)

/-- Lift of the notebook mean standard error to the fallible signature of the
specification.  The notebook cell computes unconditionally; the source
contains no validation and no raise path, so the lift always succeeds. -/
noncomputable def standard_error_mean_run (sd : ℝ) (n : ℕ) :
    Except EstimatorError ℝ :=
  Except.ok (standard_error_mean sd n)

/-- Lift of the notebook pooling step to the fallible signature of the
specification.  The notebook cell computes unconditionally; the source
contains no validation and no raise path, so the lift always succeeds. -/
noncomputable def pool_standard_errors_run (se_a se_b : ℝ) :
    Except EstimatorError ℝ :=
  Except.ok (pool_standard_errors se_a se_b)

/-- Lift of the notebook interval construction to the fallible signature of
the specification.  The notebook cells compute unconditionally; the source
contains no validation and no raise path, so the lift always succeeds. -/
def confidence_interval_run (point_estimate standard_error : ℝ) :
    Except EstimatorError ℝ × Except EstimatorError ℝ :=
  (Except.ok (confidence_interval point_estimate standard_error).1,
   Except.ok (confidence_interval point_estimate standard_error).2)

/-- Modelled from the spec: `standard_error_mean` together with the input
validation of sections 4.1 and 7, which is absent from the repository code.
It raises `InvalidInput` when `dispersion < 0` or `count = 0` and otherwise
computes `dispersion / sqrt(count)`. -/
noncomputable def standard_error_mean_spec (sd : ℝ) (n : ℕ) :
    Except EstimatorError ℝ :=
  if sd < 0 ∨ n = 0 then Except.error EstimatorError.InvalidInput
  else Except.ok (sd / Real.sqrt n)

/-- Modelled from the spec: the two-sided standard normal critical value at
coverage 0.95, stated by the specification as approximately 1.959964.  The
inverse standard normal CDF appears nowhere in the repository code. -/
def z_spec_95 : ℝ := 1.959964

/-- Helper: rational bracketing of a square root. -/
theorem sqrt_bounds {a l u : ℝ} (hl : 0 ≤ l) (hu : 0 < u)
    (h1 : l ^ 2 < a) (h2 : a < u ^ 2) :
    l < Real.sqrt a ∧ Real.sqrt a < u :=
  ⟨(Real.lt_sqrt hl).mpr h1, (Real.sqrt_lt' hu).mpr h2⟩

/-- Helper: the interval of the notebook contains its point estimate whenever
the supplied standard error is nonnegative. -/
theorem confidence_interval_bounds_aux {pe se : ℝ} (hse : 0 ≤ se) :
    (confidence_interval pe se).1 ≤ pe ∧ pe ≤ (confidence_interval pe se).2 := by
  constructor <;> simp only [confidence_interval, z_code] <;> nlinarith

/-- Claim C1 counterexample: the multiplier used by the notebook interval
cells is the hard-coded literal 1.96; it differs from the inverse-CDF
critical value 1.959964 stated by the specification by more than the
specification tolerance of 1e-9, so the multiplier is not computed from the
inverse standard-normal CDF. -/
theorem multiplier_hardcoded_counterexample :
    z_code = 196 / 100 ∧ |z_code - z_spec_95| > 1 / 10 ^ 9 := by
  constructor
  · norm_num [z_code]
  · rw [show z_code - z_spec_95 = 36 / 10 ^ 6 by norm_num [z_code, z_spec_95]]
    rw [abs_of_pos (by norm_num)]
    norm_num

/-- Claim C1 (amended): the multiplier used by the interval construction of
the code is the hard-coded constant 1.96, and the construction uses this same
multiplier whatever coverage level is requested; arbitrary coverage values
are not supported. -/
theorem multiplier_is_constant :
    z_code = 196 / 100 ∧
      ∀ coverage point_estimate standard_error : ℝ,
        confidence_interval_at coverage point_estimate standard_error =
          (point_estimate - z_code * standard_error,
           point_estimate + z_code * standard_error) :=
  ⟨by norm_num [z_code], fun _ _ _ => rfl⟩

/-- Claim C2 counterexample: at dispersion `-1` and count `4`, a violated
precondition of section 4.1, the code performs the full computation and
returns the value `-1/2`; it does not raise `InvalidInput`, while the
operation modelled from the spec raises `InvalidInput` there. -/
theorem no_invalid_input_counterexample :
    standard_error_mean_run (-1) 4 = Except.ok (-(1 / 2) : ℝ) ∧
      standard_error_mean_spec (-1) 4 =
        Except.error EstimatorError.InvalidInput := by
  constructor
  · have h : Real.sqrt ((4 : ℕ) : ℝ) = 2 := by
      rw [show (((4 : ℕ) : ℝ)) = 2 ^ 2 by norm_num, Real.sqrt_sq (by norm_num)]
    simp only [standard_error_mean_run, standard_error_mean, h]
    norm_num
  · simp only [standard_error_mean_spec]
    rw [if_pos (Or.inl (by norm_num : (-1 : ℝ) < 0))]

/-- Claim C2 (amended): the notebook code performs no input validation at
all: none of its operations ever raises `InvalidInput`; on inputs violating
the preconditions of section 4.1 the arithmetic simply runs to completion. -/
theorem code_never_raises :
    ∀ (p sd pe se se_a se_b : ℝ) (n m : ℕ),
      standard_error_proportion_run p n ≠
          Except.error EstimatorError.InvalidInput ∧
        standard_error_mean_run sd m ≠
          Except.error EstimatorError.InvalidInput ∧
        pool_standard_errors_run se_a se_b ≠
          Except.error EstimatorError.InvalidInput ∧
        (confidence_interval_run pe se).1 ≠
          Except.error EstimatorError.InvalidInput ∧
        (confidence_interval_run pe se).2 ≠
          Except.error EstimatorError.InvalidInput := by
  intro p sd pe se se_a se_b n m
  refine ⟨?_, ?_, ?_, ?_, ?_⟩ <;> intro h <;>
    simp [standard_error_proportion_run, standard_error_mean_run,
      pool_standard_errors_run, confidence_interval_run] at h

/-- Claim C3: for every proportion statistic `p` in `[0, 1]` and count
`n > 0`, `standard_error_proportion` returns `sqrt (p * (1 - p) / n)` within
tolerance 1e-9 (exactly, in the real embedding), and returns exactly 0 when
`p` is exactly 0 or exactly 1. -/
theorem standard_error_proportion_formula (p : ℝ) (n : ℕ)
    (_h0 : 0 ≤ p) (_h1 : p ≤ 1) (_hn : 0 < n) :
    |standard_error_proportion p n - Real.sqrt (p * (1 - p) / n)| ≤ 1 / 10 ^ 9 ∧
      (p = 0 → standard_error_proportion p n = 0) ∧
      (p = 1 → standard_error_proportion p n = 0) := by
  refine ⟨?_, ?_, ?_⟩
  · rw [standard_error_proportion, sub_self, abs_zero]
    norm_num
  · intro h
    simp [standard_error_proportion, h]
  · intro h
    simp [standard_error_proportion, h]

/-- Claim C3 witness at `p = 1/2`, `n = 4`. -/
theorem standard_error_proportion_formula_witness :
    |standard_error_proportion (1 / 2) 4 -
        Real.sqrt ((1 / 2 : ℝ) * (1 - 1 / 2) / ((4 : ℕ) : ℝ))| ≤ 1 / 10 ^ 9 ∧
      ((1 / 2 : ℝ) = 0 → standard_error_proportion (1 / 2) 4 = 0) ∧
      ((1 / 2 : ℝ) = 1 → standard_error_proportion (1 / 2) 4 = 0) :=
  standard_error_proportion_formula (1 / 2) 4 (by norm_num) (by norm_num)
    (by norm_num)

/-- Claim C4: for every sample standard deviation `sd ≥ 0` and count `n > 0`,
`standard_error_mean` returns `sd / sqrt n`. -/
theorem standard_error_mean_formula (sd : ℝ) (n : ℕ)
    (_hd : 0 ≤ sd) (_hn : 0 < n) :
    standard_error_mean sd n = sd / Real.sqrt n := rfl

/-- Claim C4 witness at `sd = 2`, `n = 4`. -/
theorem standard_error_mean_formula_witness :
    standard_error_mean 2 4 = 2 / Real.sqrt ((4 : ℕ) : ℝ) :=
  standard_error_mean_formula 2 4 (by norm_num) (by norm_num)

/-- Claim C5: for all nonnegative standard errors, `pool_standard_errors`
equals `sqrt (se_a ^ 2 + se_b ^ 2)` and is monotonically non-decreasing in
each argument. -/
theorem pool_standard_errors_formula_monotone (a b a2 b2 : ℝ)
    (ha : 0 ≤ a) (hb : 0 ≤ b) (ha2 : a ≤ a2) (hb2 : b ≤ b2) :
    pool_standard_errors a b = Real.sqrt (a ^ 2 + b ^ 2) ∧
      pool_standard_errors a b ≤ pool_standard_errors a2 b ∧
      pool_standard_errors a b ≤ pool_standard_errors a b2 := by
  refine ⟨rfl, ?_, ?_⟩
  · apply Real.sqrt_le_sqrt
    have : a ^ 2 ≤ a2 ^ 2 := pow_le_pow_left₀ ha ha2 2
    linarith
  · apply Real.sqrt_le_sqrt
    have : b ^ 2 ≤ b2 ^ 2 := pow_le_pow_left₀ hb hb2 2
    linarith

/-- Claim C5 witness at `a = 0`, `b = 1`, `a2 = 2`, `b2 = 3`. -/
theorem pool_standard_errors_formula_monotone_witness :
    pool_standard_errors 0 1 = Real.sqrt ((0 : ℝ) ^ 2 + 1 ^ 2) ∧
      pool_standard_errors 0 1 ≤ pool_standard_errors 2 1 ∧
      pool_standard_errors 0 1 ≤ pool_standard_errors 0 3 :=
  pool_standard_errors_formula_monotone 0 1 2 3 (by norm_num) (by norm_num)
    (by norm_num) (by norm_num)

/-- Claim C6: for every point estimate, every nonnegative standard error and
every requested coverage level in `(0, 1)`, the interval construction of the
code returns lower bound `pe - z * se` and upper bound `pe + z * se` for the
multiplier `z` it uses, so the interval is symmetric around the point
estimate within tolerance 1e-9. -/
theorem confidence_interval_symmetric (c pe se : ℝ)
    (_hc0 : 0 < c) (_hc1 : c < 1) (_hse : 0 ≤ se) :
    (confidence_interval_at c pe se).1 = pe - z_code * se ∧
      (confidence_interval_at c pe se).2 = pe + z_code * se ∧
      |((confidence_interval_at c pe se).2 - pe) -
          (pe - (confidence_interval_at c pe se).1)| ≤ 1 / 10 ^ 9 := by
  refine ⟨rfl, rfl, ?_⟩
  have h : ((confidence_interval_at c pe se).2 - pe) -
      (pe - (confidence_interval_at c pe se).1) = 0 := by
    show pe + z_code * se - pe - (pe - (pe - z_code * se)) = 0
    ring
  rw [h, abs_zero]
  norm_num

/-- Claim C6 witness at coverage `0.95`, point estimate `1`, standard error
`2`. -/
theorem confidence_interval_symmetric_witness :
    (confidence_interval_at 0.95 1 2).1 = 1 - z_code * 2 ∧
      (confidence_interval_at 0.95 1 2).2 = 1 + z_code * 2 ∧
      |((confidence_interval_at 0.95 1 2).2 - 1) -
          (1 - (confidence_interval_at 0.95 1 2).1)| ≤ 1 / 10 ^ 9 :=
  confidence_interval_symmetric 0.95 1 2 (by norm_num) (by norm_num)
    (by norm_num)

/-- Claim C7 counterexample: with point estimate `0` and standard error
`1 > 0`, raising the requested coverage from `0.90` to `0.99` leaves both
interval bounds of the code unchanged, so the interval is not strictly
widened. -/
theorem coverage_does_not_widen_counterexample :
    (0.90 : ℝ) < 0.99 ∧ (0 : ℝ) < 1 ∧
      (confidence_interval_at 0.99 0 1).1 = (confidence_interval_at 0.90 0 1).1 ∧
      (confidence_interval_at 0.99 0 1).2 = (confidence_interval_at 0.90 0 1).2 :=
  ⟨by norm_num, by norm_num, rfl, rfl⟩

/-- Claim C7 (amended): the interval construction of the code does not depend
on the requested coverage level at all; for fixed point estimate and standard
error, changing the coverage leaves the returned interval unchanged. -/
theorem interval_independent_of_coverage :
    ∀ c c2 point_estimate standard_error : ℝ,
      confidence_interval_at c point_estimate standard_error =
        confidence_interval_at c2 point_estimate standard_error :=
  fun _ _ _ _ => rfl

/-- Claim C8: every interval returned by the notebook construction (and hence
by the end-to-end difference composition) contains its point estimate between
its bounds, and the nominal coverage level of the notebook intervals lies in
`(0, 1)`. -/
theorem interval_invariant (pe se : ℝ) (hse : 0 ≤ se) :
    (confidence_interval pe se).1 ≤ pe ∧ pe ≤ (confidence_interval pe se).2 ∧
      0 < nominal_coverage ∧ nominal_coverage < 1 ∧
      ∀ (p_a p_b : ℝ) (n_a n_b : ℕ),
        (difference_interval_prop p_a n_a p_b n_b).1 ≤ p_a - p_b ∧
          p_a - p_b ≤ (difference_interval_prop p_a n_a p_b n_b).2 := by
  refine ⟨(confidence_interval_bounds_aux hse).1,
    (confidence_interval_bounds_aux hse).2,
    by norm_num [nominal_coverage], by norm_num [nominal_coverage], ?_⟩
  intro p_a p_b n_a n_b
  exact confidence_interval_bounds_aux (Real.sqrt_nonneg _)

/-- Claim C8 witness at point estimate `0`, standard error `1`. -/
theorem interval_invariant_witness :
    (confidence_interval 0 1).1 ≤ 0 ∧ (0 : ℝ) ≤ (confidence_interval 0 1).2 ∧
      0 < nominal_coverage ∧ nominal_coverage < 1 ∧
      ∀ (p_a p_b : ℝ) (n_a n_b : ℕ),
        (difference_interval_prop p_a n_a p_b n_b).1 ≤ p_a - p_b ∧
          p_a - p_b ≤ (difference_interval_prop p_a n_a p_b n_b).2 :=
  interval_invariant 0 1 (by norm_num)

/-- Claim C10: pooling two nonnegative standard errors yields a value at
least as large as either input, and the pooling rule is symmetric in its two
arguments. -/
theorem pool_dominates_and_symmetric (a b : ℝ) (ha : 0 ≤ a) (hb : 0 ≤ b) :
    a ≤ pool_standard_errors a b ∧ b ≤ pool_standard_errors a b ∧
      pool_standard_errors a b = pool_standard_errors b a := by
  refine ⟨?_, ?_, by rw [pool_standard_errors, pool_standard_errors, add_comm]⟩
  · exact (Real.le_sqrt ha (by positivity)).mpr (by nlinarith [sq_nonneg b])
  · exact (Real.le_sqrt hb (by positivity)).mpr (by nlinarith [sq_nonneg a])

/-- Claim C10 witness at `a = 1`, `b = 2`. -/
theorem pool_dominates_and_symmetric_witness :
    (1 : ℝ) ≤ pool_standard_errors 1 2 ∧ (2 : ℝ) ≤ pool_standard_errors 1 2 ∧
      pool_standard_errors 1 2 = pool_standard_errors 2 1 :=
  pool_dominates_and_symmetric 1 2 (by norm_num) (by norm_num)

/-- Claim C9: the end-to-end proportions scenario.  With female proportion
`0.304845` on `2972` observations and male proportion `0.513258` on `2753`
observations, the per-group standard errors, the pooled standard error, the
point difference male minus female, and the 95 percent interval produced by
the notebook pipeline match the values stated by the specification within
1e-6. -/
theorem proportions_scenario :
    |standard_error_proportion 0.304845 2972 - 0.0084442| < 1 / 10 ^ 6 ∧
      |standard_error_proportion 0.513258 2753 - 0.0095261| < 1 / 10 ^ 6 ∧
      |pool_standard_errors (standard_error_proportion 0.513258 2753)
          (standard_error_proportion 0.304845 2972) - 0.0127299| < 1 / 10 ^ 6 ∧
      (0.513258 : ℝ) - 0.304845 = 0.208413 ∧
      |(difference_interval_prop 0.513258 2753 0.304845 2972).1 - 0.183462| <
        1 / 10 ^ 6 ∧
      |(difference_interval_prop 0.513258 2753 0.304845 2972).2 - 0.233364| <
        1 / 10 ^ 6 := by
  have hf : (0.008444 : ℝ) < standard_error_proportion 0.304845 2972 ∧
      standard_error_proportion 0.304845 2972 < 0.008445 := by
    unfold standard_error_proportion
    refine sqrt_bounds (by norm_num) (by norm_num) ?_ ?_ <;> norm_num
  have hm : (0.009526 : ℝ) < standard_error_proportion 0.513258 2753 ∧
      standard_error_proportion 0.513258 2753 < 0.009527 := by
    unfold standard_error_proportion
    refine sqrt_bounds (by norm_num) (by norm_num) ?_ ?_ <;> norm_num
  have hpool_eq : pool_standard_errors (standard_error_proportion 0.513258 2753)
        (standard_error_proportion 0.304845 2972) =
      Real.sqrt (0.513258 * (1 - 0.513258) / ((2753 : ℕ) : ℝ) +
        0.304845 * (1 - 0.304845) / ((2972 : ℕ) : ℝ)) := by
    unfold pool_standard_errors standard_error_proportion
    rw [Real.sq_sqrt (by norm_num), Real.sq_sqrt (by norm_num)]
  have hpool : (0.0127298 : ℝ) <
      pool_standard_errors (standard_error_proportion 0.513258 2753)
        (standard_error_proportion 0.304845 2972) ∧
      pool_standard_errors (standard_error_proportion 0.513258 2753)
        (standard_error_proportion 0.304845 2972) < 0.01273 := by
    rw [hpool_eq]
    refine sqrt_bounds (by norm_num) (by norm_num) ?_ ?_ <;> norm_num
  have hlcb : (difference_interval_prop 0.513258 2753 0.304845 2972).1 =
      0.513258 - 0.304845 -
        1.96 * pool_standard_errors (standard_error_proportion 0.513258 2753)
          (standard_error_proportion 0.304845 2972) := rfl
  have hucb : (difference_interval_prop 0.513258 2753 0.304845 2972).2 =
      0.513258 - 0.304845 +
        1.96 * pool_standard_errors (standard_error_proportion 0.513258 2753)
          (standard_error_proportion 0.304845 2972) := rfl
  refine ⟨?_, ?_, ?_, by norm_num, ?_, ?_⟩
  · rw [abs_sub_lt_iff]
    constructor <;> nlinarith [hf.1, hf.2]
  · rw [abs_sub_lt_iff]
    constructor <;> nlinarith [hm.1, hm.2]
  · rw [abs_sub_lt_iff]
    constructor <;> nlinarith [hpool.1, hpool.2]
  · rw [hlcb, abs_sub_lt_iff]
    constructor <;> nlinarith [hpool.1, hpool.2]
  · rw [hucb, abs_sub_lt_iff]
    constructor <;> nlinarith [hpool.1, hpool.2]
